import Mathlib

/-
Shallow embedding of the `arl` rate-limit measurement tool (arl.go and the
Azure token source file) together with theorems settling the frozen claims.

Machine integers: the shared success counter is a Go uint64, modelled as a
Nat reduced mod 2^64 at each increment.  Fallible Go calls are modelled with
Except; Go runtime panics (close of a closed channel, negative WaitGroup
counter, nil pointer dereference) are an explicit error type, since these
claims are about whether such faults can occur.
-/

namespace Arl

/-- A Go `error` value, identified by its message. -/
structure GoErr where
  msg : String
deriving DecidableEq, Repr

/-- The Go runtime panics this program can hit. -/
inductive GoPanic where
  | closeOfClosedChannel
  | negativeWaitGroup
  | nilPointerDereference
deriving DecidableEq, Repr

/-- 2^64, the modulus of Go's uint64 arithmetic used by `atomic.AddUint64`. -/
def UINT64_MOD : Nat := 18446744073709551616

/-! ## Probe executor: `get` (arl.go lines 59-79) -/

/-- Abstract result of putting the HTTP request on the wire: either a
network-level failure of `client.Do`, or a server response carrying a
status code. -/
inductive NetResult where
  | failure (e : GoErr)
  | response (status : Nat)
deriving DecidableEq, Repr

/-- The `CheckRedirect` hook installed on the client (arl.go lines 62-64):
it unconditionally returns an error, so the client never follows a
redirect. -/
def checkRedirect : Except GoErr Unit :=
  Except.error ⟨"redirect not allowed"⟩

/-- The HTTP status codes for which Go's `http.Client.Do` would follow a
redirect and therefore consults `CheckRedirect`: 301, 302, 303, 307, 308
(net/http `redirectBehavior`). -/
def isRedirectFollowStatus (status : Nat) : Bool :=
  status = 301 || status = 302 || status = 303 || status = 307 || status = 308

/-- Model of `client.Do(req)` for this client (arl.go line 73): a network
failure surfaces as an error; a redirect response triggers `checkRedirect`,
whose error is returned by `Do` instead of the response; any other response
is returned with its status code. -/
def clientDo (net : NetResult) : Except GoErr Nat :=
  match net with
  | NetResult.failure e => Except.error e
  | NetResult.response status =>
    if isRedirectFollowStatus status then
      match checkRedirect with
      | Except.error e => Except.error e
      | Except.ok _ => Except.ok status
    else Except.ok status

/-- Model of `get(URL, token)` (arl.go lines 59-79).  `buildErr` is the
possible failure of `http.NewRequest` (lines 67-70); on any error the Go
function returns `(0, err)`, modelled as `Except.error err` since the
caller inspects the error before the status.  Otherwise the status code of
the response is returned (line 78). -/
def get (buildErr : Option GoErr) (net : NetResult) : Except GoErr Nat :=
  match buildErr with
  | some e => Except.error e
  | none => clientDo net

/-! ## Worker outcome classification (arl.go lines 99-109) -/

/-- The effect a worker applies to the shared state after one probe,
read off the if/else-if chain at arl.go lines 101-107. -/
inductive WorkerEffect where
  | sendError (e : GoErr)
  | incrCounter
  | raiseLimit
  | noEffect
deriving DecidableEq, Repr

/-- Classification of one probe's `(httpStatus, err)` result by the worker
body (arl.go lines 100-107): an error is sent to `errorChan`; status 200
(`http.StatusOK`) increments the counter; status 429
(`http.StatusTooManyRequests`) closes `ratelimitReached`; any other status
falls through the chain with no effect. -/
def workerClassify (r : Except GoErr Nat) : WorkerEffect :=
  match r with
  | Except.error e => WorkerEffect.sendError e
  | Except.ok status =>
    if status = 200 then WorkerEffect.incrCounter
    else if status = 429 then WorkerEffect.raiseLimit
    else WorkerEffect.noEffect

/-! ## Shared run state of `measureRatelimit` (arl.go lines 86-111) -/

/-- The state shared between the dispatch loop and the workers of one
`measureRatelimit` run: the uint64 success counter `numReqs` (line 91),
whether `ratelimitReached` has been closed (line 88), whether
`ratelimitProbes` has been closed, the error delivered over `errorChan`
(line 89; unbuffered, so a recorded value stands for a completed rendezvous
with the dispatch loop's receive), and the WaitGroup counter (line 92). -/
structure Shared where
  numReqs : Nat
  limitClosed : Bool
  probesClosed : Bool
  pendingError : Option GoErr
  wg : Nat
deriving DecidableEq, Repr

/-- State at the start of a run with `p` workers: counter 0, both internal
channels open, no error delivered, and WaitGroup counter `p` after the `p`
calls of `wg.Add(1)` in the spawn loop (arl.go lines 96-97). -/
def initShared (p : Nat) : Shared :=
  { numReqs := 0, limitClosed := false, probesClosed := false
    pendingError := none, wg := p }

/-- `atomic.AddUint64(&numReqs, 1)` (arl.go line 104): uint64 increment. -/
def incrShared (s : Shared) : Shared :=
  { s with numReqs := (s.numReqs + 1) % UINT64_MOD }

/-- Apply one worker effect to the shared state, with Go semantics:
`close` of an already-closed channel panics (line 106 has no guard), the
atomic add wraps mod 2^64, and a send on `errorChan` records the delivered
error. -/
def applyEffect (eff : WorkerEffect) (s : Shared) : Except GoPanic Shared :=
  match eff with
  | WorkerEffect.sendError e => Except.ok { s with pendingError := some e }
  | WorkerEffect.incrCounter => Except.ok (incrShared s)
  | WorkerEffect.raiseLimit =>
    if s.limitClosed then Except.error GoPanic.closeOfClosedChannel
    else Except.ok { s with limitClosed := true }
  | WorkerEffect.noEffect => Except.ok s

/-- `wg.Done()` as executed once per probe (arl.go line 108): decrementing
a zero counter is a Go panic (`sync: negative WaitGroup counter`). -/
def wgDoneStep (s : Shared) : Except GoPanic Shared :=
  if s.wg = 0 then Except.error GoPanic.negativeWaitGroup
  else Except.ok { s with wg := s.wg - 1 }

/-- `wg.Wait()` returns only once the counter is 0; otherwise it blocks. -/
def wgWaitReturns (c : Nat) : Bool :=
  c == 0

/-- One iteration of a worker's `for probe := range ratelimitProbes` body
(arl.go lines 99-109): classify the probe result, apply the effect, then
`wg.Done()`. -/
def workerStep (r : Except GoErr Nat) (s : Shared) : Except GoPanic Shared := do
  let s1 ← applyEffect (workerClassify r) s
  wgDoneStep s1

/-- A sequence of probe results processed by the worker pool, in the order
in which their shared-state effects take place. -/
def processProbes : List (Except GoErr Nat) → Shared → Except GoPanic Shared
  | [], s => Except.ok s
  | r :: rs, s =>
    match workerStep r s with
    | Except.error p => Except.error p
    | Except.ok s1 => processProbes rs s1

/-! ## Dispatch loop: select arbitration and termination branches
(arl.go lines 113-133) -/

/-- One queued probe (arl.go lines 81-84). -/
structure ratelimitProbe where
  URL : String
  token : String
deriving DecidableEq, Repr

/-- The four branches of the `select` at arl.go lines 114-132. -/
inductive DispatchChoice where
  | limitReachedCase
  | abortedCase
  | erroredCase (e : GoErr)
  | defaultCase
deriving DecidableEq, Repr

/-- Go `select` semantics for the dispatch loop: the set of branches the
select can take, as a list.  A receive on `ratelimitReached` or `abort` is
ready exactly when that channel is closed; the `errorChan` receive is ready
when a worker is blocked sending an error; the `default` branch is taken
only when no other case is ready. -/
def selectChoices (limitReady abortReady : Bool) (errReady : Option GoErr) :
    List DispatchChoice :=
  let ready :=
    (if limitReady then [DispatchChoice.limitReachedCase] else []) ++
    (if abortReady then [DispatchChoice.abortedCase] else []) ++
    (match errReady with
     | some e => [DispatchChoice.erroredCase e]
     | none => [])
  if ready.isEmpty then [DispatchChoice.defaultCase] else ready

/-- Whether a send on the buffered channel `ratelimitProbes` (capacity
`cap`, current contents `q`) can complete immediately: it can iff the
buffer has room.  When it cannot, a plain send blocks. -/
def chanSendAttempt (q : List ratelimitProbe) (cap : Nat) (p : ratelimitProbe) :
    Option (List ratelimitProbe) :=
  if q.length < cap then some (q ++ [p]) else none

/-- What executing the `default` branch does to the dispatch loop. -/
inductive DispatchOutcome where
  | enqueued (q : List ratelimitProbe)
  | blockedOnSend
deriving DecidableEq, Repr

/-- The body of the `default` branch (arl.go line 131): a plain channel
send `ratelimitProbes <- ratelimitProbe\x7bURL, token\x7d`.  If the buffer
has room the probe is enqueued; if the buffer is full the send blocks — the
loop does not return to the `select` until the send completes. -/
def dispatchDefault (q : List ratelimitProbe) (cap : Nat) (p : ratelimitProbe) :
    DispatchOutcome :=
  match chanSendAttempt q cap p with
  | some q2 => DispatchOutcome.enqueued q2
  | none => DispatchOutcome.blockedOnSend

/-- The tagged reason a run stops (the three terminating select branches). -/
inductive RunReason where
  | limitReached
  | aborted
  | errored
deriving DecidableEq, Repr

/-- What one run reports: its termination reason, the throughput (computed
only on the limit-reached branch, arl.go line 120), and the probe error
(carried only on the error branch, line 128). -/
structure RunResult where
  reason : RunReason
  throughput : Option ℚ
  err : Option GoErr
deriving DecidableEq, Repr

/-- The `case <-ratelimitReached` branch (arl.go lines 115-121): close the
probe queue, atomically swap the success counter with 0, and report
throughput = swapped count / elapsed seconds.  `elapsed` is the wall-clock
duration `end.Sub(start)` in seconds, as a rational standing in for the
float64 of the source. -/
def limitBranch (s : Shared) (elapsed : ℚ) : RunResult × Shared :=
  let s1 := { s with probesClosed := true }
  let currentNumReqs := s1.numReqs
  let s2 := { s1 with numReqs := 0 }
  ({ reason := RunReason.limitReached
     throughput := some ((currentNumReqs : ℚ) / elapsed)
     err := none }, s2)

/-- The `case <-abort` branch (arl.go lines 122-125): close the probe
queue and return with no throughput. -/
def abortBranch (s : Shared) : RunResult × Shared :=
  ({ reason := RunReason.aborted, throughput := none, err := none },
   { s with probesClosed := true })

/-- The `case probeErr := <-errorChan` branch (arl.go lines 126-129):
close the probe queue and return the received error, with no throughput. -/
def errorBranch (e : GoErr) (s : Shared) : RunResult × Shared :=
  ({ reason := RunReason.errored, throughput := none, err := some e },
   { s with probesClosed := true })

/-- `k` further `atomic.AddUint64(&numReqs, 1)` increments applied by
workers whose probes were still in flight. -/
def applySuccessN : Nat → Shared → Shared
  | 0, s => s
  | k + 1, s => applySuccessN k (incrShared s)

/-! ## Token source (Azure token source file) and `fetchTokens`
(arl.go lines 39-57) -/

/-- `adal.ServicePrincipalToken`, reduced to the one field this program
reads. -/
structure SPT where
  AccessToken : String
deriving DecidableEq, Repr

/-- `AzureTokenSource` (token source file lines 21-27): `spt` is the
`*adal.ServicePrincipalToken` pointer, `none` standing for Go's nil.  The
mutex and the `oauthConfig` value are not modelled; the lock only
serialises the two methods. -/
structure AzureTokenSource where
  clientID : String
  resource : String
  spt : Option SPT
deriving DecidableEq, Repr

/-- `NewAzureTokenSource` (lines 30-41): on success the source starts with
a nil `spt`.  `oauthRes` is the result of `adal.NewOAuthConfig`. -/
def NewAzureTokenSource (clientID resource : String) (oauthRes : Except GoErr Unit) :
    Except GoErr AzureTokenSource :=
  match oauthRes with
  | Except.error e => Except.error e
  | Except.ok _ =>
    Except.ok { clientID := clientID, resource := resource, spt := none }

/-- `acquireTokenDeviceCodeFlow` (lines 63-91), with the three external
adal calls supplied as parameters: a failed `InitiateDeviceAuth` or
`WaitForUserCompletion` yields `(nil, wrapped error)`; otherwise the pair
returned by `NewServicePrincipalTokenFromManualToken` is passed through
unchanged. -/
def acquireTokenDeviceCodeFlow (initiate : Except GoErr Unit)
    (waitUser : Except GoErr Unit) (newSPT : Option SPT × Option GoErr) :
    Option SPT × Option GoErr :=
  match initiate with
  | Except.error e =>
    (none, some ⟨"Failed to start device auth flow: " ++ e.msg⟩)
  | Except.ok _ =>
    match waitUser with
    | Except.error e =>
      (none, some ⟨"Failed to finish device auth flow: " ++ e.msg⟩)
    | Except.ok _ => newSPT

/-- `AzureTokenSource.Token` (lines 44-50): store the acquisition result
in `ts.spt`, then return `ts.spt.AccessToken, err`.  When the acquisition
failed, `ts.spt` is nil and the field access is a nil pointer dereference —
a Go runtime panic, not a returned error. -/
def azureToken (ts : AzureTokenSource) (acq : Option SPT × Option GoErr) :
    Except GoPanic (String × Option GoErr × AzureTokenSource) :=
  let ts2 := { ts with spt := acq.1 }
  match ts2.spt with
  | none => Except.error GoPanic.nilPointerDereference
  | some spt => Except.ok (spt.AccessToken, acq.2, ts2)

/-- `AzureTokenSource.Refresh` (lines 53-61): with a nil `spt` it returns
the usage error; otherwise it refreshes the token in place (the external
`spt.Refresh()` call supplied as `refreshRes`) and returns the new access
token together with the refresh error, Go-style. -/
def azureRefresh (ts : AzureTokenSource) (refreshRes : SPT → SPT × Option GoErr) :
    String × Option GoErr × AzureTokenSource :=
  match ts.spt with
  | none =>
    ("", some ⟨"service principal token is nil. call Token() before Refresh()"⟩, ts)
  | some spt =>
    let r := refreshRes spt
    (r.1.AccessToken, r.2, { ts with spt := some r.1 })

/-- The `TokenSource` interface (token source file lines 15-18), as a pair
of state-passing operations. -/
structure TokenSourceM (σ : Type) where
  tokenFn : σ → Except GoErr String × σ
  refreshFn : σ → Except GoErr String × σ

/-- The refresh loop of `fetchTokens` (arl.go lines 48-54): `k` remaining
iterations of `for i := 2; i <= num; i++`, each calling `Refresh` and
appending the token, aborting on the first error. -/
def fetchTokensAux {σ : Type} (src : TokenSourceM σ) :
    Nat → σ → List String → Except GoErr (List String × σ)
  | 0, s, acc => Except.ok (acc, s)
  | k + 1, s, acc =>
    match src.refreshFn s with
    | (Except.error e, _) => Except.error e
    | (Except.ok t, s1) => fetchTokensAux src k s1 (acc ++ [t])

/-- `fetchTokens` (arl.go lines 39-57): one `Token()` call for the first
token, then `num - 1` `Refresh()` calls (the loop runs for i = 2..num). -/
def fetchTokens {σ : Type} (src : TokenSourceM σ) (num : Nat) (s : σ) :
    Except GoErr (List String × σ) :=
  match src.tokenFn s with
  | (Except.error e, _) => Except.error e
  | (Except.ok t, s1) => fetchTokensAux src (num - 1) s1 [t]

/-- A token source whose calls all succeed and are instrumented by their
call index: the i-th call (0-based) returns `f i` if it is the initial
acquisition and `g i` if it is a refresh. -/
def countingSource (f g : Nat → String) : TokenSourceM Nat :=
  { tokenFn := fun n => (Except.ok (f n), n + 1)
    refreshFn := fun n => (Except.ok (g n), n + 1) }

/-! ## Claim theorems -/

/-- C1: the claim says that raising the "limit reached" signal a second
time completes without a fault.  On the code, the raise is an unguarded
`close(ratelimitReached)` (arl.go line 106), and Go's close of an
already-closed channel panics: when two workers each observe an HTTP 429,
the second raise crashes the run instead of being a no-op.  This theorem
evaluates the model at that failing input. -/
theorem double_throttle_close_panics :
    processProbes [Except.ok 429, Except.ok 429] (initShared 2) =
      Except.error GoPanic.closeOfClosedChannel := by
  rfl

/-- C2: the claim says the WaitGroup counter never goes negative and never
stays permanently positive for every number of probes processed.  In the
code `wg.Add(1)` runs once per worker (arl.go line 97) but `wg.Done()`
runs once per probe (line 108), so with 2 workers: after 3 probes the
third `Done` drives the counter negative (a Go panic), and after only 1
probe the counter is stuck at 1, so the deferred `wg.Wait()` (line 93)
never returns.  This theorem evaluates the model at both failing inputs. -/
theorem waitgroup_counter_unbalanced :
    processProbes [Except.ok 200, Except.ok 200, Except.ok 200] (initShared 2) =
      Except.error GoPanic.negativeWaitGroup
    ∧ processProbes [Except.ok 200] (initShared 2) =
      Except.ok { numReqs := 1, limitClosed := false, probesClosed := false
                  pendingError := none, wg := 1 }
    ∧ wgWaitReturns 1 = false := by
  refine ⟨rfl, rfl, rfl⟩

/-- C3 counterexample: the claim says that when the probe queue is full the
dispatch loop falls through to re-checking the termination signals instead
of waiting.  On the code, the `default` branch of the select performs a
plain channel send (arl.go line 131), and a plain send on a full buffered
channel blocks: at a concrete full queue (2 probes buffered, capacity 2)
the iteration blocks on the send. -/
theorem dispatch_full_queue_blocks :
    (List.replicate 2 ({ URL := "https://example.com/", token := "tok" } :
        ratelimitProbe)).length = 2
    ∧ dispatchDefault
        (List.replicate 2 { URL := "https://example.com/", token := "tok" }) 2
        { URL := "https://example.com/", token := "tok" } =
      DispatchOutcome.blockedOnSend := by
  refine ⟨rfl, rfl⟩

/-- C3 amended: on every iteration the dispatch loop first checks the three
termination signals (the `default` branch is taken only when none is
ready); when none is ready it performs a plain send onto the work queue —
if the queue has room the probe is enqueued, and if the queue is full the
send blocks until capacity frees rather than falling through to re-check
the signals. -/
theorem dispatch_send_blocking_semantics (q : List ratelimitProbe) (cap : Nat)
    (p : ratelimitProbe) (l a : Bool) (er : Option GoErr) :
    (q.length < cap → dispatchDefault q cap p = DispatchOutcome.enqueued (q ++ [p]))
    ∧ (cap ≤ q.length → dispatchDefault q cap p = DispatchOutcome.blockedOnSend)
    ∧ ((l || a || er.isSome) = true →
        DispatchChoice.defaultCase ∉ selectChoices l a er) := by
  refine ⟨?_, ?_, ?_⟩
  · intro h
    simp [dispatchDefault, chanSendAttempt, h]
  · intro h
    simp [dispatchDefault, chanSendAttempt, Nat.not_lt.mpr h]
  · intro h
    cases l <;> cases a <;> rcases er with _ | e <;>
      simp_all [selectChoices]

/-- Witness for the amended C3 theorem, at a queue of capacity 2: one
buffered probe lets the send complete, two buffered probes block it, and
with the abort signal ready the `default` branch is not taken. -/
theorem dispatch_send_blocking_semantics_witness :
    (([{ URL := "u", token := "t" }] : List ratelimitProbe).length < 2
      ∧ dispatchDefault [{ URL := "u", token := "t" }] 2 { URL := "u", token := "t" } =
          DispatchOutcome.enqueued [{ URL := "u", token := "t" }, { URL := "u", token := "t" }])
    ∧ (2 ≤ ([{ URL := "u", token := "t" }, { URL := "u", token := "t" }] :
          List ratelimitProbe).length
      ∧ dispatchDefault [{ URL := "u", token := "t" }, { URL := "u", token := "t" }] 2
          { URL := "u", token := "t" } = DispatchOutcome.blockedOnSend)
    ∧ ((false || true || (none : Option GoErr).isSome) = true
      ∧ DispatchChoice.defaultCase ∉ selectChoices false true none) :=
  ⟨⟨by decide,
    (dispatch_send_blocking_semantics [{ URL := "u", token := "t" }] 2
      { URL := "u", token := "t" } false true none).1 (by decide)⟩,
   ⟨by decide,
    (dispatch_send_blocking_semantics
      [{ URL := "u", token := "t" }, { URL := "u", token := "t" }] 2
      { URL := "u", token := "t" } false true none).2.1 (by decide)⟩,
   ⟨by decide,
    (dispatch_send_blocking_semantics
      [{ URL := "u", token := "t" }, { URL := "u", token := "t" }] 2
      { URL := "u", token := "t" } false true none).2.2 (by decide)⟩⟩

/-- C4: the claim says `AzureTokenSource.Token()` never faults, returning
either a token or a non-nil error.  On the code, when
`acquireTokenDeviceCodeFlow` fails (here: `InitiateDeviceAuth` fails) it
returns a nil service-principal token, and `Token` (token source file
lines 44-50) then evaluates `ts.spt.AccessToken` on the nil pointer — a
runtime panic, not a returned error.  This theorem evaluates the model at
that failing input. -/
theorem token_nil_spt_panics :
    azureToken { clientID := "client", resource := "https://example.com/", spt := none }
      (acquireTokenDeviceCodeFlow (Except.error ⟨"network unreachable"⟩)
        (Except.ok ()) (none, none)) =
      Except.error GoPanic.nilPointerDereference := by
  rfl

/-- C5: with the abort channel already closed before `measureRatelimit`
starts, the first select iteration has the abort receive as its only ready
case — the `default` (enqueue) branch cannot be taken, so zero probes are
dispatched, and the abort branch reports reason = aborted with no
throughput.  But the claim also says the run terminates: it does not,
because with 1 worker and 0 probes processed the WaitGroup counter stays
at 1 (`Done` runs only per probe, arl.go line 108), so the deferred
`wg.Wait()` (line 93) blocks forever.  This theorem evaluates the model at
that failing input. -/
theorem preset_abort_reports_but_wait_blocks :
    selectChoices false true none = [DispatchChoice.abortedCase]
    ∧ DispatchChoice.defaultCase ∉ selectChoices false true none
    ∧ (abortBranch (initShared 1)).1 =
        { reason := RunReason.aborted, throughput := none, err := none }
    ∧ (abortBranch (initShared 1)).1.throughput = none
    ∧ wgWaitReturns (initShared 1).wg = false := by
  refine ⟨rfl, by decide, rfl, rfl, rfl⟩

/-- Adding before or after reducing mod 2^64 agrees. -/
lemma mod_add_cancel (a k : Nat) :
    (a % UINT64_MOD + k) % UINT64_MOD = (a + k) % UINT64_MOD := by
  simp only [UINT64_MOD]
  omega

/-- The counter after `k` in-flight increments from a state whose counter
is in range. -/
lemma applySuccessN_numReqs (k : Nat) : ∀ s : Shared, s.numReqs < UINT64_MOD →
    (applySuccessN k s).numReqs = (s.numReqs + k) % UINT64_MOD := by
  induction k with
  | zero =>
    intro s hs
    simp [applySuccessN, Nat.mod_eq_of_lt hs]
  | succ k ih =>
    intro s hs
    have hlt : (incrShared s).numReqs < UINT64_MOD := by
      simp only [incrShared]
      exact Nat.mod_lt _ (by simp only [UINT64_MOD]; omega)
    rw [applySuccessN, ih (incrShared s) hlt]
    simp only [incrShared]
    rw [mod_add_cancel]
    congr 1
    omega

/-- C6 counterexample: the claim says throughput equals the counter value
at the moment of detection and that any subsequent read returns 0.  On the
code, in-flight probes keep running after `ratelimitReached` fires: with 3
workers, one worker's 429 closes the channel while the counter is 0
(detection); a second worker's in-flight 200 then raises the counter to 1
before the dispatch loop executes `atomic.SwapUint64` (arl.go line 118),
so the reported throughput is 1/elapsed, not 0/elapsed; and a third
worker's in-flight 200 after the swap leaves the counter at 1, so a
subsequent read returns 1, not 0. -/
theorem limit_reached_counter_race :
    processProbes [Except.ok 429] (initShared 3) =
      Except.ok { numReqs := 0, limitClosed := true, probesClosed := false
                  pendingError := none, wg := 2 }
    ∧ processProbes [Except.ok 200]
        { numReqs := 0, limitClosed := true, probesClosed := false
          pendingError := none, wg := 2 } =
      Except.ok { numReqs := 1, limitClosed := true, probesClosed := false
                  pendingError := none, wg := 1 }
    ∧ (limitBranch
        { numReqs := 1, limitClosed := true, probesClosed := false
          pendingError := none, wg := 1 } 1).1.reason = RunReason.limitReached
    ∧ (limitBranch
        { numReqs := 1, limitClosed := true, probesClosed := false
          pendingError := none, wg := 1 } 1).1.throughput = some 1
    ∧ (limitBranch
        { numReqs := 1, limitClosed := true, probesClosed := false
          pendingError := none, wg := 1 } 1).2 =
      { numReqs := 0, limitClosed := true, probesClosed := true
        pendingError := none, wg := 1 }
    ∧ processProbes [Except.ok 200]
        { numReqs := 0, limitClosed := true, probesClosed := true
          pendingError := none, wg := 1 } =
      Except.ok { numReqs := 1, limitClosed := true, probesClosed := true
                  pendingError := none, wg := 0 }
    ∧ (limitBranch
        { numReqs := 1, limitClosed := true, probesClosed := false
          pendingError := none, wg := 1 } 1).1.throughput ≠
      some ((({ numReqs := 0, limitClosed := true, probesClosed := false
                pendingError := none, wg := 2 } : Shared).numReqs : ℚ) / 1)
    ∧ ({ numReqs := 1, limitClosed := true, probesClosed := true
         pendingError := none, wg := 0 } : Shared).numReqs ≠ 0 := by
  refine ⟨rfl, rfl, rfl, by norm_num [limitBranch], rfl, rfl,
    by norm_num [limitBranch], by decide⟩

/-- C6 amended: on the limit-reached branch the throughput equals the
success-counter value at the moment of the atomic read-and-reset (which
may differ from the value at detection, since in-flight probes may still
increment the counter) divided by the elapsed seconds; the counter is read
exactly once, by the swap, which sets it to 0; a subsequent read returns
the number of successes recorded by in-flight workers since the reset
(0 when there are none). -/
theorem limit_reached_swap_semantics (s : Shared) (elapsed : ℚ) (k : Nat)
    (_helapsed : 0 < elapsed) (hk : k < UINT64_MOD) :
    (limitBranch s elapsed).1.throughput = some ((s.numReqs : ℚ) / elapsed)
    ∧ ((limitBranch s elapsed).2).numReqs = 0
    ∧ (applySuccessN k (limitBranch s elapsed).2).numReqs = k := by
  refine ⟨rfl, rfl, ?_⟩
  rw [applySuccessN_numReqs k _ (by simp only [limitBranch]; omega)]
  simp only [limitBranch]
  simpa using Nat.mod_eq_of_lt hk

/-- Witness for the amended C6 theorem at a concrete state, elapsed = 2
seconds and 3 post-reset in-flight successes. -/
theorem limit_reached_swap_semantics_witness :
    (0 : ℚ) < 2 ∧ 3 < UINT64_MOD
    ∧ ((limitBranch (initShared 1) 2).1.throughput =
        some (((initShared 1).numReqs : ℚ) / 2)
      ∧ ((limitBranch (initShared 1) 2).2).numReqs = 0
      ∧ (applySuccessN 3 (limitBranch (initShared 1) 2).2).numReqs = 3) :=
  ⟨by norm_num, by decide,
   limit_reached_swap_semantics (initShared 1) 2 3 (by norm_num) (by decide)⟩

/-- C7: the worker's outcome classification (arl.go lines 100-107): a
`get` error is forwarded as a transport error to `errorChan`; HTTP 200
performs the atomic uint64 increment of the shared counter; HTTP 429
raises the limit-reached signal (closing the open `ratelimitReached`
channel); any other status has no effect on the shared state; and both a
request-construction failure and a network-level failure make `get` return
the error (arl.go lines 67-76). -/
theorem probe_outcome_classification (s : Shared) (c : Nat) (e : GoErr)
    (net : NetResult) (h200 : c ≠ 200) (h429 : c ≠ 429)
    (hopen : s.limitClosed = false) :
    workerClassify (Except.ok 200) = WorkerEffect.incrCounter
    ∧ applyEffect WorkerEffect.incrCounter s = Except.ok (incrShared s)
    ∧ (incrShared s).numReqs = (s.numReqs + 1) % UINT64_MOD
    ∧ (incrShared s).limitClosed = s.limitClosed
    ∧ workerClassify (Except.ok 429) = WorkerEffect.raiseLimit
    ∧ applyEffect WorkerEffect.raiseLimit s = Except.ok { s with limitClosed := true }
    ∧ workerClassify (Except.ok c) = WorkerEffect.noEffect
    ∧ applyEffect WorkerEffect.noEffect s = Except.ok s
    ∧ workerClassify (Except.error e) = WorkerEffect.sendError e
    ∧ get (some e) net = Except.error e
    ∧ get none (NetResult.failure e) = Except.error e := by
  refine ⟨rfl, rfl, rfl, rfl, rfl, ?_, ?_, rfl, rfl, rfl, rfl⟩
  · simp [applyEffect, hopen]
  · simp [workerClassify, h200, h429]

/-- Witness for the C7 theorem at status 503, a concrete error and a fresh
run state. -/
theorem probe_outcome_classification_witness :
    (503 ≠ 200) ∧ (503 ≠ 429) ∧ (initShared 4).limitClosed = false
    ∧ workerClassify (Except.ok 503) = WorkerEffect.noEffect
    ∧ applyEffect WorkerEffect.noEffect (initShared 4) = Except.ok (initShared 4)
    ∧ get none (NetResult.failure ⟨"connection refused"⟩) =
        Except.error ⟨"connection refused"⟩ :=
  ⟨by decide, by decide, rfl,
   (probe_outcome_classification (initShared 4) 503 ⟨"connection refused"⟩
     (NetResult.failure ⟨"connection refused"⟩) (by decide) (by decide)
     rfl).2.2.2.2.2.2.1,
   (probe_outcome_classification (initShared 4) 503 ⟨"connection refused"⟩
     (NetResult.failure ⟨"connection refused"⟩) (by decide) (by decide)
     rfl).2.2.2.2.2.2.2.1,
   (probe_outcome_classification (initShared 4) 503 ⟨"connection refused"⟩
     (NetResult.failure ⟨"connection refused"⟩) (by decide) (by decide)
     rfl).2.2.2.2.2.2.2.2.2.2⟩

/-- C9: for every status code on which Go's client would follow a
redirect, the installed `CheckRedirect` hook (arl.go lines 62-64) makes
`client.Do` — and hence `get` — return the "redirect not allowed" error
instead of a response, and the worker classifies that result as the
transport-error case, not as a success or throttling outcome. -/
theorem redirect_is_transport_error (status : Nat)
    (h : isRedirectFollowStatus status = true) :
    get none (NetResult.response status) = Except.error ⟨"redirect not allowed"⟩
    ∧ workerClassify (get none (NetResult.response status)) =
        WorkerEffect.sendError ⟨"redirect not allowed"⟩ := by
  have h1 : get none (NetResult.response status) =
      Except.error ⟨"redirect not allowed"⟩ := by
    simp [get, clientDo, h, checkRedirect]
  refine ⟨h1, ?_⟩
  rw [h1]
  rfl

/-- Witness for the C9 theorem at status 302. -/
theorem redirect_is_transport_error_witness :
    isRedirectFollowStatus 302 = true
    ∧ (get none (NetResult.response 302) = Except.error ⟨"redirect not allowed"⟩
      ∧ workerClassify (get none (NetResult.response 302)) =
          WorkerEffect.sendError ⟨"redirect not allowed"⟩) :=
  ⟨by decide, redirect_is_transport_error 302 (by decide)⟩

/-- The refresh loop of `fetchTokens` over the instrumented
always-succeeding source appends one refreshed token per remaining
iteration. -/
lemma fetchTokensAux_counting (f g : Nat → String) :
    ∀ (k n : Nat) (acc : List String),
      fetchTokensAux (countingSource f g) k n acc =
        Except.ok (acc ++ (List.range k).map (fun i => g (n + i)), n + k) := by
  intro k
  induction k with
  | zero =>
    intro n acc
    simp [fetchTokensAux]
  | succ k ih =>
    intro n acc
    have hstep : fetchTokensAux (countingSource f g) (k + 1) n acc =
        fetchTokensAux (countingSource f g) k (n + 1) (acc ++ [g n]) := rfl
    rw [hstep, ih (n + 1) (acc ++ [g n])]
    simp only [Except.ok.injEq, Prod.mk.injEq]
    constructor
    · rw [List.range_succ_eq_map]
      simp only [List.map_cons, Nat.add_zero, List.map_map, List.append_assoc,
        List.singleton_append]
      have hfun : (fun i => g (n + 1 + i)) = ((fun i => g (n + i)) ∘ Nat.succ) := by
        funext i
        simp only [Function.comp]
        congr 1
        omega
      rw [hfun]
    · omega

/-- C10: `fetchTokens` (arl.go lines 39-57) obtains the first token from
the `Token()` call and each of the remaining `num - 1` tokens from a
`Refresh()` call, returning exactly `num` tokens when every call succeeds;
and on a source fresh out of `NewAzureTokenSource` (whose `spt` is nil),
`Refresh` returns the usage error instead of a token (token source file
lines 53-61). -/
theorem fetchTokens_order_and_refresh_guard (f g : Nat → String) (num : Nat)
    (hnum : 1 ≤ num) (cid res : String) (refreshRes : SPT → SPT × Option GoErr) :
    fetchTokens (countingSource f g) num 0 =
      Except.ok (f 0 :: (List.range (num - 1)).map (fun i => g (1 + i)), num)
    ∧ (f 0 :: (List.range (num - 1)).map (fun i => g (1 + i))).length = num
    ∧ NewAzureTokenSource cid res (Except.ok ()) =
        Except.ok { clientID := cid, resource := res, spt := none }
    ∧ azureRefresh { clientID := cid, resource := res, spt := none } refreshRes =
        ("", some ⟨"service principal token is nil. call Token() before Refresh()"⟩,
         { clientID := cid, resource := res, spt := none }) := by
  refine ⟨?_, ?_, rfl, rfl⟩
  · have hstep : fetchTokens (countingSource f g) num 0 =
        fetchTokensAux (countingSource f g) (num - 1) 1 [f 0] := rfl
    rw [hstep, fetchTokensAux_counting f g (num - 1) 1 [f 0]]
    simp only [List.singleton_append, Except.ok.injEq, Prod.mk.injEq]
    exact ⟨trivial, by omega⟩
  · simp only [List.length_cons, List.length_map, List.length_range]
    omega

/-- Witness for the C10 theorem at num = 3 and a concrete fresh source. -/
theorem fetchTokens_order_and_refresh_guard_witness :
    1 ≤ 3
    ∧ (fetchTokens (countingSource (fun _ => "first") (fun _ => "refreshed")) 3 0 =
        Except.ok ("first" :: (List.range 2).map (fun _ => "refreshed"), 3)
      ∧ ("first" :: (List.range 2).map
          (fun (_ : Nat) => "refreshed")).length = 3
      ∧ NewAzureTokenSource "cid" "https://example.com/" (Except.ok ()) =
          Except.ok { clientID := "cid", resource := "https://example.com/", spt := none }
      ∧ azureRefresh
          { clientID := "cid", resource := "https://example.com/", spt := none }
          (fun t => (t, none)) =
        ("", some ⟨"service principal token is nil. call Token() before Refresh()"⟩,
         { clientID := "cid", resource := "https://example.com/", spt := none })) :=
  ⟨by decide,
   fetchTokens_order_and_refresh_guard (fun _ => "first") (fun _ => "refreshed") 3
     (by decide) "cid" "https://example.com/" (fun t => (t, none))⟩

/-- C8: the three terminating branches of the dispatch loop: a transport
error delivered over `errorChan` ends the run with reason = error carrying
that error and no throughput; the abort branch reports no throughput;
only the limit-reached branch computes a throughput value.  The claim also
says the run terminates, and there the code fails: with 2 workers, after
the single erroring probe only one `wg.Done()` has run, so the WaitGroup
counter is stuck at 1 and the deferred `wg.Wait()` (arl.go line 93) never
returns.  This theorem evaluates the model at that failing input. -/
theorem transport_error_branch_and_wait :
    processProbes [Except.error ⟨"connection refused"⟩] (initShared 2) =
      Except.ok { numReqs := 0, limitClosed := false, probesClosed := false
                  pendingError := some ⟨"connection refused"⟩, wg := 1 }
    ∧ errorBranch ⟨"connection refused"⟩
        { numReqs := 0, limitClosed := false, probesClosed := false
          pendingError := some ⟨"connection refused"⟩, wg := 1 } =
      ({ reason := RunReason.errored, throughput := none
         err := some ⟨"connection refused"⟩ },
       { numReqs := 0, limitClosed := false, probesClosed := true
         pendingError := some ⟨"connection refused"⟩, wg := 1 })
    ∧ (abortBranch (initShared 2)).1.throughput = none
    ∧ ((limitBranch (initShared 2) 1).1.throughput).isSome = true
    ∧ wgWaitReturns 1 = false := by
  refine ⟨rfl, rfl, rfl, rfl, rfl⟩

end Arl
